import Mathlib

/-!
Verification of the message reconciliation layer of the chat client.

The definitions below are a shallow embedding of the code in
`src/App/AppProvider.tsx` (the functions `loadMessages`, `sendMessage`,
`deleteMessage` of the provider), `src/App/messges.js` (`messagesService`)
and the `ApiClient` class. Asynchronous gateway calls are embedded as an
explicit `Except` argument holding the outcome of the awaited call;
`AsyncStorage` is embedded as an explicit key-value store threaded through
each operation (a JSON round-trip through `getItem`/`setItem` of a stored
message list is modelled as the identity). ISO-8601 timestamps order
lexicographically exactly as chronologically, so `createdAt` is modelled
as a natural number; `Date.now().toString()` becomes `toString now`.
React state setters (`setMessages`, `setLoading`, `setError`) become
functional updates of an `AppState` record; each embedded operation
returns its result together with the post-state after the `finally`
block has run.
-/

namespace ChatApp

/-- A message object as built and consumed by `AppProvider.tsx`: the code
reads exactly the fields `uuid`, `text`, `createdAt`, `outgoing`. -/
structure Message where
  uuid : String
  text : String
  createdAt : Nat
  outgoing : Bool
deriving DecidableEq

/-- The provider state touched by the message operations: the `messages`
cache array, the `loading` flag and the `error` slot. -/
structure AppState where
  messages : List Message
  loading : Bool
  error : Option String
deriving DecidableEq

/-- An error thrown by the gateway layer (`ApiClient.request` throws an
`Error` with a message). -/
structure ApiError where
  message : String
deriving DecidableEq

/-- The parsed response of `messagesService.getMessages`: the code reads
`response.messages || []`, so the field may be absent. An array is truthy
in JavaScript even when empty, hence `Option` (absent vs present) and not
an emptiness test. -/
structure GetMessagesResponse where
  messages : Option (List Message)
deriving DecidableEq

/-- The parsed response of `messagesService.sendMessage`: the code reads
`response.message || ...` and `response.uuid || ...`, so both fields may
be absent. -/
structure SendResponse where
  message : Option Message
  uuid : Option String
deriving DecidableEq

/-- `AsyncStorage` embedded as an association list from keys to stored
message lists (`getItem` returning `null` is `none`). -/
abbrev Store := List (String × List Message)

/-- `AsyncStorage.getItem` composed with `JSON.parse` of a stored list. -/
def storeGet (store : Store) (key : String) : Option (List Message) :=
  (store.find? (fun p => p.1 == key)).map (fun p => p.2)

/-- `AsyncStorage.setItem` composed with `JSON.stringify`: replaces the
value at `key`. -/
def storeSet (store : Store) (key : String) (val : List Message) : Store :=
  (key, val) :: store.filter (fun p => p.1 != key)

/-- JavaScript `a || b` on an optional string: an absent or empty string
is falsy and falls through to the default. -/
def jsOrString (v : Option String) (d : String) : String :=
  match v with
  | some s => if s = "" then d else s
  | none => d

/-- The merge performed inline in `loadMessages` (AppProvider.tsx lines
158-164): the fetched list followed by every locally stored message whose
`uuid` does not occur among the fetched ones
(`localMessages.filter(localMsg => !fetchedMessages.some(msg => msg.uuid === localMsg.uuid))`). -/
def mergeMessages (fetched localMessages : List Message) : List Message :=
  fetched ++ localMessages.filter (fun lm => !(fetched.any (fun m => m.uuid == lm.uuid)))

/-- `loadMessages` of `AppProvider.tsx` (lines 144-175). `gw` is the
outcome of the awaited `messagesService.getMessages` call, `stored` the
outcome of `AsyncStorage.getItem` for the conversation key. Returns the
value returned to the caller and the post-state: on success the merged
list is published via `setMessages` and returned; in the catch branch the
error slot is set and `[]` is returned with the cache untouched. -/
def loadMessages (gw : Except ApiError GetMessagesResponse)
    (stored : Option (List Message)) (st : AppState) : List Message × AppState :=
  match gw with
  | .error _ => ([], { st with loading := false, error := some "Failed to load messages" })
  | .ok resp =>
    let fetched := resp.messages.getD []
    let merged :=
      match stored with
      | some localMessages => mergeMessages fetched localMessages
      | none => fetched
    (merged, { st with messages := merged, loading := false, error := none })

/-- The provider state observable while the `sendMessage` gateway call is
in flight: before `await messagesService.sendMessage(...)` resolves, the
code has only run `setLoading(true)` and `setError(null)`; the `messages`
cache has not been touched. -/
def sendMessagePreGateway (st : AppState) : AppState :=
  { st with loading := true, error := none }

/-- The `newMessage` built in `sendMessage`:
`response.message || { uuid: response.uuid || Date.now().toString(), text, createdAt: ..., outgoing: true }`. -/
def newMessageOfResponse (resp : SendResponse) (text : String) (now : Nat) : Message :=
  resp.message.getD
    { uuid := jsOrString resp.uuid (toString now), text := text, createdAt := now,
      outgoing := true }

/-- `sendMessage` of `AppProvider.tsx` (lines 107-142). `gw` is the
outcome of the awaited gateway send, `now` the clock value used for the
fallback message. On success the new message is appended to the cache and
to the conversation's stored list and returned; in the catch branch the
error slot is set, `null` is returned, and neither cache nor store is
written. -/
def sendMessage (gw : Except ApiError SendResponse) (contactUUID text : String) (now : Nat)
    (store : Store) (st : AppState) : Option Message × AppState × Store :=
  match gw with
  | .error _ =>
    (none, { st with loading := false, error := some "Failed to send message" }, store)
  | .ok resp =>
    let newMessage := newMessageOfResponse resp text now
    let st' := { st with messages := st.messages ++ [newMessage], loading := false,
                         error := none }
    let storedMessages := (storeGet store ("messages_" ++ contactUUID)).getD []
    let store' := storeSet store ("messages_" ++ contactUUID)
      (storedMessages ++ [newMessage])
    (some newMessage, st', store')

/-- `deleteMessage` of `AppProvider.tsx` (lines 285-299). On gateway
success the cache is filtered by `msg.uuid !== messageUUID` and `true` is
returned; in the catch branch the error slot is set and `false` is
returned. The code never reads or writes `AsyncStorage` here, so the
store passes through unchanged on both paths. -/
def deleteMessage (gw : Except ApiError Unit) (messageUUID : String)
    (store : Store) (st : AppState) : Bool × AppState × Store :=
  match gw with
  | .error _ =>
    (false, { st with loading := false, error := some "Failed to delete message" }, store)
  | .ok _ =>
    (true,
     { st with messages := st.messages.filter (fun m => m.uuid != messageUUID),
               loading := false, error := none },
     store)

/-- The options object a caller may pass to `ApiClient.get`; `getMessages`
passes `params: { limit: 100 }`. -/
structure GetOptions where
  limitParam : Option Nat
deriving DecidableEq

/-- The request the `ApiClient` hands to `fetch`: endpoint, method, and
whatever limit parameter actually reaches the wire. -/
structure HttpRequest where
  endpoint : String
  method : String
  limitParam : Option Nat
deriving DecidableEq

/-- `ApiClient.request(endpoint, options)` builds the outgoing request
from the endpoint and the options it receives. -/
def apiClientRequest (endpoint method : String) (limitParam : Option Nat) : HttpRequest :=
  { endpoint := endpoint, method := method, limitParam := limitParam }

/-- `ApiClient.get` is declared as `async get(endpoint)` and forwards only
`{ method: 'GET' }` to `request`: an options argument supplied at a call
site is dropped, so no limit parameter ever reaches the request. -/
def apiClientGet (endpoint : String) (_droppedOptions : Option GetOptions) : HttpRequest :=
  apiClientRequest endpoint "GET" none

/-- `messagesService.getMessages` (messges.js lines 25-31): calls
`client.get` on the contact's messages endpoint with
`{ params: { limit: 100 } }` as second argument. -/
def getMessagesRequest (contactUUID : String) : HttpRequest :=
  apiClientGet ("/contacts/" ++ contactUUID ++ "/messages")
    (some { limitParam := some 100 })

/-- Concrete messages used by witnesses and counterexamples. -/
def mA : Message := { uuid := "a", text := "hello", createdAt := 1, outgoing := true }

def mB : Message := { uuid := "b", text := "world", createdAt := 2, outgoing := false }

def mLate : Message := { uuid := "r1", text := "remote", createdAt := 5, outgoing := false }

def mEarly : Message := { uuid := "l1", text := "local", createdAt := 3, outgoing := true }

/-- An empty provider state. -/
def st0 : AppState := { messages := [], loading := false, error := none }

/-- A provider state whose cache holds exactly `mA`. -/
def stWithA : AppState := { messages := [mA], loading := false, error := none }

/-- Reading a key just written to the store yields the written value. -/
theorem storeGet_storeSet (store : Store) (key : String) (val : List Message) :
    storeGet (storeSet store key val) key = some val := by
  simp [storeGet, storeSet]

/-- C1 (corrected): the merge drops a local entry exactly when a fetched
entry shares its uuid, and when the fetched list and the local list each
contain no repeated uuid, the cache published by loadMessages contains no
two entries with an identical uuid. -/
theorem loadMessages_merge_uuid_nodup
    (resp : GetMessagesResponse) (localMessages : List Message) (st : AppState)
    (hr : ((resp.messages.getD []).map Message.uuid).Nodup)
    (hl : (localMessages.map Message.uuid).Nodup) :
    (((loadMessages (.ok resp) (some localMessages) st).2.messages).map Message.uuid).Nodup ∧
    ∀ lm ∈ localMessages,
      ((∀ rm ∈ resp.messages.getD [], rm.uuid ≠ lm.uuid) ↔
        lm ∈ localMessages.filter
          (fun x => !((resp.messages.getD []).any (fun m => m.uuid == x.uuid)))) := by
  constructor
  · show ((mergeMessages (resp.messages.getD []) localMessages).map Message.uuid).Nodup
    unfold mergeMessages
    rw [List.map_append, List.nodup_append]
    refine ⟨hr, hl.sublist ((List.filter_sublist _).map Message.uuid), ?_⟩
    intro u hu hu'
    obtain ⟨rm, hrm, hrmu⟩ := List.mem_map.1 hu
    obtain ⟨lm, hlm, hlmu⟩ := List.mem_map.1 hu'
    rw [List.mem_filter] at hlm
    have hnone := hlm.2
    simp only [Bool.not_eq_true', List.any_eq_false, beq_iff_eq] at hnone
    exact hnone rm hrm (hrmu.trans hlmu.symm)
  · intro lm hlm
    constructor
    · intro h
      rw [List.mem_filter]
      refine ⟨hlm, ?_⟩
      simp only [Bool.not_eq_true', List.any_eq_false, beq_iff_eq]
      exact h
    · intro h
      have hp := (List.mem_filter.1 h).2
      simp only [Bool.not_eq_true', List.any_eq_false, beq_iff_eq] at hp
      exact hp

/-- C1 witness: the corrected theorem applied at fetched list [mA] and
local list [mB], whose uuids are distinct. -/
theorem loadMessages_merge_uuid_nodup_witness :
    (([mA].map Message.uuid).Nodup ∧ ([mB].map Message.uuid).Nodup) ∧
    ((((loadMessages (.ok { messages := some [mA] }) (some [mB]) st0).2.messages).map
        Message.uuid).Nodup ∧
      ∀ lm ∈ [mB],
        ((∀ rm ∈ [mA], rm.uuid ≠ lm.uuid) ↔
          lm ∈ [mB].filter (fun x => !([mA].any (fun m => m.uuid == x.uuid))))) :=
  ⟨⟨by decide, by decide⟩,
    loadMessages_merge_uuid_nodup { messages := some [mA] } [mB] st0 (by decide) (by decide)⟩

/-- C1 counterexample: when the fetched list itself repeats the uuid "a",
the cache published by loadMessages holds two entries with an identical
uuid, so the claim fails for arbitrary input sequences. -/
theorem loadMessages_duplicate_uuid_cex :
    ¬ ((((loadMessages (.ok { messages := some [mA, mA] }) (some []) st0).2.messages).map
        Message.uuid).Nodup) := by
  decide

/-- C2 (corrected): the merge performed during loadMessages never sorts;
it returns the fetched list followed by the surviving local entries in
their input orders. Its output is non-decreasing in createdAt exactly
under the stated conditions: each input already non-decreasing and every
local entry no earlier than every fetched entry. -/
theorem loadMessages_merge_order
    (resp : GetMessagesResponse) (localMessages : List Message) (st : AppState)
    (hr : (resp.messages.getD []).Pairwise (fun a b => a.createdAt ≤ b.createdAt))
    (hl : localMessages.Pairwise (fun a b => a.createdAt ≤ b.createdAt))
    (hcross : ∀ a ∈ resp.messages.getD [], ∀ b ∈ localMessages,
      a.createdAt ≤ b.createdAt) :
    ((loadMessages (.ok resp) (some localMessages) st).1).Pairwise
      (fun a b => a.createdAt ≤ b.createdAt) := by
  show ((mergeMessages (resp.messages.getD []) localMessages)).Pairwise _
  unfold mergeMessages
  rw [List.pairwise_append]
  refine ⟨hr, hl.sublist (List.filter_sublist _), ?_⟩
  intro a ha b hb
  exact hcross a ha b (List.mem_filter.1 hb).1

/-- C2 witness: the corrected theorem applied at fetched list [mA]
(createdAt 1) and local list [mB] (createdAt 2). -/
theorem loadMessages_merge_order_witness :
    (([mA].Pairwise (fun a b => a.createdAt ≤ b.createdAt)) ∧
      ([mB].Pairwise (fun a b => a.createdAt ≤ b.createdAt)) ∧
      (∀ a ∈ [mA], ∀ b ∈ [mB], a.createdAt ≤ b.createdAt)) ∧
    ((loadMessages (.ok { messages := some [mA] }) (some [mB]) st0).1).Pairwise
      (fun a b => a.createdAt ≤ b.createdAt) :=
  ⟨⟨by decide, by decide, by decide⟩,
    loadMessages_merge_order { messages := some [mA] } [mB] st0 (by decide) (by decide)
      (by decide)⟩

/-- C2 counterexample: a fetched message with createdAt 5 followed by a
surviving local message with createdAt 3 yields a merge output whose
createdAt values decrease, so the output is not ordered ascending. -/
theorem loadMessages_order_cex :
    ¬ (((loadMessages (.ok { messages := some [mLate] }) (some [mEarly]) st0).1).Pairwise
        (fun a b => a.createdAt ≤ b.createdAt)) := by
  decide

/-- C3 counterexample: sending "hi" in conversation C1 from an empty
cache: while the gateway send is in flight the cache still contains no
entry at all, so no local-pending placeholder message was inserted before
the request completed — the code builds its message only from the gateway
response, after the await. -/
theorem sendMessage_no_optimistic_cex :
    (sendMessagePreGateway st0).messages = [] := rfl

/-- C3 (corrected): sendMessage performs no optimistic insert — the cache
is unchanged while the gateway send is in flight; once the gateway
confirms with a message whose uuid is fresh for the cache, exactly one
entry with the confirmed uuid is appended to the cache and returned, and
no placeholder entry exists at any point. -/
theorem sendMessage_confirm_only
    (resp : SendResponse) (m : Message) (contactUUID text : String) (now : Nat)
    (store : Store) (st : AppState)
    (hm : resp.message = some m)
    (hfresh : st.messages.countP (fun x => x.uuid == m.uuid) = 0) :
    (sendMessagePreGateway st).messages = st.messages ∧
    (sendMessage (.ok resp) contactUUID text now store st).1 = some m ∧
    (sendMessage (.ok resp) contactUUID text now store st).2.1.messages
      = st.messages ++ [m] ∧
    ((sendMessage (.ok resp) contactUUID text now store st).2.1.messages.countP
      (fun x => x.uuid == m.uuid)) = 1 := by
  have hmsg : newMessageOfResponse resp text now = m := by
    simp [newMessageOfResponse, hm]
  refine ⟨rfl, ?_, ?_, ?_⟩
  · simp [sendMessage, hmsg]
  · simp [sendMessage, hmsg]
  · simp [sendMessage, hmsg, List.countP_append, hfresh]

/-- C3 witness: the corrected theorem applied to a gateway confirmation
carrying message mB, sent in conversation C1 from the empty state. -/
theorem sendMessage_confirm_only_witness :
    (({ message := some mB, uuid := none } : SendResponse).message = some mB ∧
      st0.messages.countP (fun x => x.uuid == mB.uuid) = 0) ∧
    ((sendMessagePreGateway st0).messages = st0.messages ∧
      (sendMessage (.ok { message := some mB, uuid := none }) "C1" "hi" 7 [] st0).1
        = some mB ∧
      (sendMessage (.ok { message := some mB, uuid := none }) "C1" "hi" 7 [] st0).2.1.messages
        = st0.messages ++ [mB] ∧
      ((sendMessage (.ok { message := some mB, uuid := none })
          "C1" "hi" 7 [] st0).2.1.messages.countP (fun x => x.uuid == mB.uuid)) = 1) :=
  ⟨⟨rfl, by decide⟩,
    sendMessage_confirm_only { message := some mB, uuid := none } mB "C1" "hi" 7 [] st0
      rfl (by decide)⟩

/-- C4 counterexample: sending "hi" in conversation C1 from an empty
cache with a failing gateway: afterwards the cache contains no entry at
all — there is no optimistic entry to retain with a failed status,
because no optimistic entry was ever inserted. -/
theorem sendMessage_failed_cex :
    (sendMessage (.error { message := "boom" }) "C1" "hi" 0 [] st0).2.1.messages = [] := rfl

/-- C4 (corrected): if the gateway send fails, sendMessage returns null,
leaves the cache exactly as before — no entry is added or marked failed —
sets the error slot, and writes nothing to the store. -/
theorem sendMessage_gateway_failure (e : ApiError) (contactUUID text : String) (now : Nat)
    (store : Store) (st : AppState) :
    (sendMessage (.error e) contactUUID text now store st).1 = none ∧
    (sendMessage (.error e) contactUUID text now store st).2.1.messages = st.messages ∧
    (sendMessage (.error e) contactUUID text now store st).2.1.error
      = some "Failed to send message" ∧
    (sendMessage (.error e) contactUUID text now store st).2.2 = store :=
  ⟨rfl, rfl, rfl, rfl⟩

/-- C5 counterexample: with a failing gateway and a non-empty cache,
loadMessages returns the empty list — a normal message-sequence value,
indistinguishable from an empty thread — rather than failing; the cache
is unchanged and the failure is visible only in the error slot. -/
theorem loadMessages_failure_returns_empty_cex :
    (loadMessages (.error { message := "boom" }) (some [mA]) stWithA).1 = [] ∧
    (loadMessages (.error { message := "boom" }) (some [mA]) stWithA).2.messages = [mA] :=
  ⟨rfl, rfl⟩

/-- C5 (corrected): if the gateway fetch fails, loadMessages leaves the
cached message list exactly as before and sets the error slot, but it
does not fail: it returns the empty list as a normal return value. -/
theorem loadMessages_gateway_failure (e : ApiError) (stored : Option (List Message))
    (st : AppState) :
    (loadMessages (.error e) stored st).1 = [] ∧
    (loadMessages (.error e) stored st).2.messages = st.messages ∧
    (loadMessages (.error e) stored st).2.error = some "Failed to load messages" :=
  ⟨rfl, rfl, rfl⟩

/-- C6 counterexample: mA is persisted in the store for conversation C1
and present in the cache; after a successful gateway delete of its uuid,
the cache entry is gone but the store still holds mA — deleteMessage
never touches the persisted list, even for a locally persisted message. -/
theorem deleteMessage_store_retained_cex :
    (deleteMessage (.ok ()) "a" [("messages_C1", [mA])] stWithA).2.1.messages = [] ∧
    storeGet (deleteMessage (.ok ()) "a" [("messages_C1", [mA])] stWithA).2.2 "messages_C1"
      = some [mA] := by
  exact ⟨by decide, by decide⟩

/-- C6 (corrected): deleteMessage affects the cache only. On gateway
success every cache entry whose uuid equals the target is removed, but
the store is never read or written, so on every path the persisted lists
survive unchanged. -/
theorem deleteMessage_cache_only (gw : Except ApiError Unit) (u : String)
    (store : Store) (st : AppState) :
    (deleteMessage gw u store st).2.2 = store ∧
    (deleteMessage (.ok ()) u store st).2.1.messages.countP (fun m => m.uuid == u) = 0 := by
  constructor
  · cases gw <;> rfl
  · show (st.messages.filter _).countP _ = 0
    rw [List.countP_eq_zero]
    intro m hm
    have hne := (List.mem_filter.1 hm).2
    simp only [bne_iff_ne, ne_eq] at hne
    simp [hne]

/-- C7: the merge is a deterministic pure function of its two inputs:
identical remote and local inputs always produce identical output. The
embedding is a pure function exactly because the source merge expression
reads only its fetched and local lists and no other state. -/
theorem mergeMessages_deterministic (r₁ r₂ l₁ l₂ : List Message)
    (hr : r₁ = r₂) (hl : l₁ = l₂) :
    mergeMessages r₁ l₁ = mergeMessages r₂ l₂ := by rw [hr, hl]

/-- C7 witness: the determinism theorem applied at remote [mA], local [mB]. -/
theorem mergeMessages_deterministic_witness :
    ([mA] = [mA] ∧ [mB] = [mB]) ∧ mergeMessages [mA] [mB] = mergeMessages [mA] [mB] :=
  ⟨⟨rfl, rfl⟩, mergeMessages_deterministic [mA] [mA] [mB] [mB] rfl rfl⟩

/-- C8: the fetch request issued for contact c1 carries no limit
parameter: getMessages passes a limit of 100 as an options argument, but
ApiClient.get declares no options parameter and forwards only the method,
so the limit never reaches the outgoing request. -/
theorem getMessagesRequest_drops_limit :
    (getMessagesRequest "c1").limitParam = none ∧
    (getMessagesRequest "c1").endpoint = "/contacts/c1/messages" ∧
    (getMessagesRequest "c1").method = "GET" :=
  ⟨rfl, rfl, rfl⟩

/-- C9: on gateway success deleteMessage returns true with no presence
check — for every state, including one with no matching entry — and the
new cache is exactly the old one with the entries whose uuid equals the
target removed: membership is characterized by the uuid test, and the
result is a sublist of the old cache, so every other entry survives in
its original order. -/
theorem deleteMessage_ok_true_and_filters (u : String) (store : Store) (st : AppState) :
    (deleteMessage (.ok ()) u store st).1 = true ∧
    (∀ m, m ∈ (deleteMessage (.ok ()) u store st).2.1.messages ↔
      m ∈ st.messages ∧ m.uuid ≠ u) ∧
    (deleteMessage (.ok ()) u store st).2.1.messages.Sublist st.messages := by
  refine ⟨rfl, ?_, ?_⟩
  · intro m
    show m ∈ st.messages.filter _ ↔ _
    rw [List.mem_filter]
    simp [bne_iff_ne]
  · exact List.filter_sublist _

/-- C10: when the gateway send succeeds but the response carries no
message field, sendMessage synthesizes a fallback whose uuid is the
response uuid or, when that is absent or empty, the clock value rendered
as a string; it appends this entry both to the cache and to the
conversation's persisted store list and returns it to the caller. -/
theorem sendMessage_fallback_synthesis
    (resp : SendResponse) (contactUUID text : String) (now : Nat)
    (store : Store) (st : AppState)
    (hnone : resp.message = none) :
    (sendMessage (.ok resp) contactUUID text now store st).1 =
      some { uuid := jsOrString resp.uuid (toString now), text := text, createdAt := now,
             outgoing := true } ∧
    (sendMessage (.ok resp) contactUUID text now store st).2.1.messages =
      st.messages ++ [{ uuid := jsOrString resp.uuid (toString now), text := text,
                        createdAt := now, outgoing := true }] ∧
    storeGet (sendMessage (.ok resp) contactUUID text now store st).2.2
        ("messages_" ++ contactUUID) =
      some ((storeGet store ("messages_" ++ contactUUID)).getD []
        ++ [{ uuid := jsOrString resp.uuid (toString now), text := text, createdAt := now,
              outgoing := true }]) := by
  have hmsg : newMessageOfResponse resp text now =
      { uuid := jsOrString resp.uuid (toString now), text := text, createdAt := now,
        outgoing := true } := by
    simp [newMessageOfResponse, hnone]
  refine ⟨?_, ?_, ?_⟩
  · simp [sendMessage, hmsg]
  · simp [sendMessage, hmsg]
  · show storeGet (storeSet store ("messages_" ++ contactUUID)
        ((storeGet store ("messages_" ++ contactUUID)).getD []
          ++ [newMessageOfResponse resp text now])) ("messages_" ++ contactUUID) = _
    rw [storeGet_storeSet, hmsg]

/-- C10 witness: the fallback theorem applied to a response with no
message field and uuid m-42, sent in conversation C1 at clock 7 with mA
already persisted. -/
theorem sendMessage_fallback_synthesis_witness :
    (({ message := none, uuid := some "m-42" } : SendResponse).message = none) ∧
    ((sendMessage (.ok { message := none, uuid := some "m-42" }) "C1" "hi" 7
        [("messages_C1", [mA])] stWithA).1 =
      some { uuid := jsOrString (some "m-42") (toString 7), text := "hi", createdAt := 7,
             outgoing := true } ∧
    (sendMessage (.ok { message := none, uuid := some "m-42" }) "C1" "hi" 7
        [("messages_C1", [mA])] stWithA).2.1.messages =
      stWithA.messages ++ [{ uuid := jsOrString (some "m-42") (toString 7), text := "hi",
                             createdAt := 7, outgoing := true }] ∧
    storeGet (sendMessage (.ok { message := none, uuid := some "m-42" }) "C1" "hi" 7
        [("messages_C1", [mA])] stWithA).2.2 ("messages_" ++ "C1") =
      some ((storeGet [("messages_C1", [mA])] ("messages_" ++ "C1")).getD []
        ++ [{ uuid := jsOrString (some "m-42") (toString 7), text := "hi", createdAt := 7,
              outgoing := true }])) :=
  ⟨rfl,
    sendMessage_fallback_synthesis { message := none, uuid := some "m-42" } "C1" "hi" 7
      [("messages_C1", [mA])] stWithA rfl⟩

end ChatApp
